import Mathlib

/-!
Shallow embedding of the Book-Library-API service (`src/main.go`).

The service stores books in a SQLite table
`books(id TEXT PRIMARY KEY, title TEXT, author TEXT, quantity INTEGER)`
and exposes Gin HTTP handlers `createBook`, `getBooks`, `getBookById`
(plus its `GET /books/:id` route wrapper), `checkoutBook` and `returnBook`.

The table is modelled as a `List book` in insertion order. Each SQL call
is modelled by a pure function; a `Bool` flag per storage call injects the
possibility that the underlying storage operation fails (a failed call
leaves the table unchanged and surfaces an error, exactly as `database/sql`
does). The `INSERT` models SQLite's primary-key uniqueness constraint:
inserting a row whose `id` is already present fails.
-/

/-- The book record (struct `book`, src/main.go lines 16-21): one row of the
`books` table. `Quantity` is a Go `int`, modelled as `Int`. -/
structure book where
  ID : String
  Title : String
  Author : String
  Quantity : Int
deriving Repr, DecidableEq

/-- The catalog: the rows of the `books` table, in insertion order. -/
abbrev Store := List book

/-- `SELECT ... FROM books WHERE id = ?` via `QueryRow`: the first row whose
`id` matches (with the `PRIMARY KEY` constraint there is at most one). -/
def findBook (s : Store) (id : String) : Option book :=
  s.find? (fun b => b.ID == id)

/-- Errors surfaced by a `QueryRow(...).Scan` call in `database/sql`:
`sql.ErrNoRows` when no row matched, or any other (storage-level) error. -/
inductive ScanErr where
  | errNoRows
  | errOther
deriving Repr, DecidableEq

/-- `db.QueryRow("SELECT id, title, author, quantity FROM books WHERE id = ?", id).Scan(...)`.
`readFail` injects an underlying storage read failure. -/
def queryRowScan (s : Store) (readFail : Bool) (id : String) : Except ScanErr book :=
  if readFail then .error .errOther
  else
    match findBook s id with
    | none => .error .errNoRows
    | some b => .ok b

/-- The two error values `getBookById` (src/main.go lines 102-118) can return:
`notFound` models `errors.New("livro não encontrado")` on `sql.ErrNoRows`,
`readFailure` models passing the underlying scan error through unchanged. -/
inductive GetBookErr where
  | notFound
  | readFailure
deriving Repr, DecidableEq

/-- `getBookById` (src/main.go lines 102-118): scan the row with the given id;
on `sql.ErrNoRows` return the dedicated not-found error, on any other scan
error return that error itself, otherwise return the book. -/
def getBookById (s : Store) (readFail : Bool) (id : String) : Except GetBookErr book :=
  match queryRowScan s readFail id with
  | .error .errNoRows => .error .notFound
  | .error .errOther => .error .readFailure
  | .ok b => .ok b

/-- A JSON response body: a single book, a list of books, or a
`gin.H{"message": ...}` object. -/
inductive Payload where
  | item (b : book)
  | items (bs : List book)
  | message (s : String)
deriving Repr, DecidableEq

/-- The observable outcome of one handler call: the HTTP status code and body
written with `IndentedJSON`, plus the state of the `books` table afterwards. -/
structure HandlerResult where
  status : Nat
  body : Payload
  store : Store
deriving Repr, DecidableEq

/-- `db.Exec("UPDATE books SET quantity = quantity + d WHERE id = ?", id)`:
adds `d` to the quantity of every row whose `id` matches. -/
def updateQuantity (s : Store) (id : String) (d : Int) : Store :=
  s.map (fun b => if b.ID == id then { b with Quantity := b.Quantity + d } else b)

/-- A syntactically valid JSON body for `POST /books`: each field present with
a value or absent. Decoding with Go `encoding/json` leaves an absent field at
its zero value (`""` for strings, `0` for the quantity). -/
structure rawBookJSON where
  id : Option String
  title : Option String
  author : Option String
  quantity : Option Int
deriving Repr, DecidableEq

/-- `c.BindJSON(&newBook)` on a syntactically valid body: absent fields take
the Go zero value, present fields are taken verbatim. No further validation. -/
def decodeBook (r : rawBookJSON) : book :=
  ⟨r.id.getD "", r.title.getD "", r.author.getD "", r.quantity.getD 0⟩

/-- `createBook` (src/main.go lines 49-77). `req = none` models a body
`BindJSON` rejects. The handler scans `SELECT id FROM books WHERE id = ?`
into a zero-valued `existingBook` (so `sql.ErrNoRows` leaves its `ID` as
`""`), answers 409 when the scanned `ID` is non-empty, and otherwise runs
the `INSERT`, which fails on a storage error or a primary-key violation.
(The Go 500 messages carry a formatted `%v` suffix, elided here.) -/
def createBook (s : Store) (selectFail insertFail : Bool) (req : Option book) :
    HandlerResult :=
  match req with
  | none => ⟨400, .message "Dados inválidos", s⟩
  | some newBook =>
    if selectFail then ⟨500, .message "Erro ao verificar ID do livro", s⟩
    else
      let existingID := ((findBook s newBook.ID).map (fun b => b.ID)).getD ""
      if existingID ≠ "" then ⟨409, .message "ID do livro já existe", s⟩
      else if insertFail ∨ (findBook s newBook.ID).isSome then
        ⟨500, .message "Erro ao adicionar livro", s⟩
      else ⟨201, .item newBook, s ++ [newBook]⟩

/-- `getBooks` (src/main.go lines 80-99): list every row. -/
def getBooks (s : Store) (queryFail : Bool) : HandlerResult :=
  if queryFail then ⟨500, .message "Erro ao buscar livros", s⟩
  else ⟨200, .items s, s⟩

/-- The `GET /books/:id` route handler (src/main.go lines 204-212): call
`getBookById` and map ANY error — not-found or read failure alike — to
404 "Livro não encontrado". -/
def getBookRoute (s : Store) (readFail : Bool) (id : String) : HandlerResult :=
  match getBookById s readFail id with
  | .error _ => ⟨404, .message "Livro não encontrado", s⟩
  | .ok b => ⟨200, .item b, s⟩

/-- `checkoutBook` (src/main.go lines 121-156): decode `{id}`, reject an
empty id with 400, look the book up (any lookup error becomes 404), reject
`Quantity <= 0` with 400 "Livro não disponível", then run
`UPDATE books SET quantity = quantity - 1 WHERE id = ?` and answer 200 with
the book value read before the update. -/
def checkoutBook (s : Store) (readFail updateFail : Bool) (req : Option String) :
    HandlerResult :=
  match req with
  | none => ⟨400, .message "Dados inválidos", s⟩
  | some id =>
    if id = "" then ⟨400, .message "ID é necessário", s⟩
    else
      match getBookById s readFail id with
      | .error _ => ⟨404, .message "Livro não encontrado", s⟩
      | .ok b =>
        if b.Quantity ≤ 0 then ⟨400, .message "Livro não disponível", s⟩
        else if updateFail then ⟨500, .message "Erro ao realizar checkout", s⟩
        else ⟨200, .item b, updateQuantity s id (-1)⟩

/-- `returnBook` (src/main.go lines 159-189): decode `{id}`, reject an empty
id with 400, look the book up (any lookup error becomes 404), then run
`UPDATE books SET quantity = quantity + 1 WHERE id = ?` unconditionally and
answer 200 with the book value read before the update. -/
def returnBook (s : Store) (readFail updateFail : Bool) (req : Option String) :
    HandlerResult :=
  match req with
  | none => ⟨400, .message "Dados inválidos", s⟩
  | some id =>
    if id = "" then ⟨400, .message "ID é necessário", s⟩
    else
      match getBookById s readFail id with
      | .error _ => ⟨404, .message "Livro não encontrado", s⟩
      | .ok b =>
        if updateFail then ⟨500, .message "Erro ao retornar livro", s⟩
        else ⟨200, .item b, updateQuantity s id 1⟩

/-- The `PRIMARY KEY` constraint on `id`: no two rows share an id. -/
def WF (s : Store) : Prop := (s.map (fun b => b.ID)).Nodup

/-- Every stored quantity is nonnegative. -/
def NonNeg (s : Store) : Prop := ∀ b ∈ s, 0 ≤ b.Quantity

instance : DecidablePred WF := fun s => by
  unfold WF; infer_instance

instance : DecidablePred NonNeg := fun s => by
  unfold NonNeg; infer_instance

/-! ### Helper lemmas about the storage primitives -/

theorem findBook_id {s : Store} {id : String} {b : book}
    (h : findBook s id = some b) : b.ID = id := by
  have := List.find?_some h
  exact eq_of_beq this

theorem findBook_cons (x : book) (xs : Store) (id : String) :
    findBook (x :: xs) id = if x.ID = id then some x else findBook xs id := by
  unfold findBook
  by_cases h : x.ID = id
  · rw [@List.find?_cons_of_pos _ (fun b => b.ID == id) x xs (by simp [h]), if_pos h]
  · rw [@List.find?_cons_of_neg _ (fun b => b.ID == id) x xs (by simp [h]), if_neg h]

theorem findBook_of_mem {s : Store} {b : book} (hwf : WF s) (hb : b ∈ s) :
    findBook s b.ID = some b := by
  induction s with
  | nil => cases hb
  | cons x xs ih =>
    rcases List.mem_cons.mp hb with h | h
    · subst h
      rw [findBook_cons, if_pos rfl]
    · have hwf' : WF xs := (List.nodup_cons.mp hwf).2
      have hx : x.ID ≠ b.ID := by
        intro hxb
        rcases List.nodup_cons.mp hwf with ⟨hnotin, _⟩
        exact hnotin (by simpa [hxb] using List.mem_map_of_mem (fun b => b.ID) h)
      rw [findBook_cons, if_neg hx]
      exact ih hwf' h

theorem findBook_isSome_of_mem {s : Store} {b : book} (hb : b ∈ s) :
    (findBook s b.ID).isSome := by
  exact List.find?_isSome.mpr ⟨b, hb, by simp⟩

theorem findBook_update (s : Store) (id : String) (d : Int) :
    findBook (updateQuantity s id d) id =
      (findBook s id).map (fun b => { b with Quantity := b.Quantity + d }) := by
  induction s with
  | nil => rfl
  | cons x xs ih =>
    by_cases hid : x.ID = id
    · have h1 : updateQuantity (x :: xs) id d =
          { x with Quantity := x.Quantity + d } :: updateQuantity xs id d := by
        simp [updateQuantity, hid]
      rw [h1, findBook_cons, findBook_cons, if_pos hid]
      simp [hid]
    · have h1 : updateQuantity (x :: xs) id d = x :: updateQuantity xs id d := by
        simp [updateQuantity, hid]
      rw [h1, findBook_cons, findBook_cons, if_neg hid, if_neg hid]
      exact ih

theorem findBook_append_self {s : Store} {b : book}
    (h : findBook s b.ID = none) : findBook (s ++ [b]) b.ID = some b := by
  unfold findBook at h ⊢
  rw [List.find?_append, h]
  rw [@List.find?_cons_of_pos _ (fun x => x.ID == b.ID) b [] (by simp)]
  rfl

theorem getBookById_of_find {s : Store} {id : String} {b : book}
    (h : findBook s id = some b) : getBookById s false id = .ok b := by
  simp [getBookById, queryRowScan, h]

theorem getBookById_of_none {s : Store} {id : String}
    (h : findBook s id = none) : getBookById s false id = .error .notFound := by
  simp [getBookById, queryRowScan, h]

theorem getBookById_ok {s : Store} {rf : Bool} {id : String} {b : book}
    (h : getBookById s rf id = .ok b) : findBook s id = some b := by
  cases rf with
  | true => simp [getBookById, queryRowScan] at h
  | false =>
    cases hf : findBook s id with
    | none => simp [getBookById, queryRowScan, hf] at h
    | some x =>
      simp [getBookById, queryRowScan, hf] at h
      rw [h]

/-! ### Evaluation lemmas for the handlers -/

theorem checkoutBook_found {s : Store} {id : String} {b : book}
    (hne : id ≠ "") (hfind : findBook s id = some b) (hq : 0 < b.Quantity) :
    checkoutBook s false false (some id) =
      ⟨200, .item b, updateQuantity s id (-1)⟩ := by
  have hgb := getBookById_of_find hfind
  simp [checkoutBook, hne, hgb, not_le.mpr hq]

theorem checkoutBook_empty {s : Store} {id : String} {b : book}
    (hne : id ≠ "") (hfind : findBook s id = some b) (hq : b.Quantity ≤ 0) :
    checkoutBook s false false (some id) =
      ⟨400, .message "Livro não disponível", s⟩ := by
  have hgb := getBookById_of_find hfind
  simp [checkoutBook, hne, hgb, hq]

theorem checkoutBook_notFound {s : Store} {id : String}
    (hne : id ≠ "") (hfind : findBook s id = none) :
    checkoutBook s false false (some id) =
      ⟨404, .message "Livro não encontrado", s⟩ := by
  have hgb := getBookById_of_none hfind
  simp [checkoutBook, hne, hgb]

theorem returnBook_found {s : Store} {id : String} {b : book}
    (hne : id ≠ "") (hfind : findBook s id = some b) :
    returnBook s false false (some id) =
      ⟨200, .item b, updateQuantity s id 1⟩ := by
  have hgb := getBookById_of_find hfind
  simp [returnBook, hne, hgb]

theorem returnBook_notFound {s : Store} {id : String}
    (hne : id ≠ "") (hfind : findBook s id = none) :
    returnBook s false false (some id) =
      ⟨404, .message "Livro não encontrado", s⟩ := by
  have hgb := getBookById_of_none hfind
  simp [returnBook, hne, hgb]

theorem getBookRoute_found {s : Store} {id : String} {b : book}
    (hfind : findBook s id = some b) :
    getBookRoute s false id = ⟨200, .item b, s⟩ := by
  have hgb := getBookById_of_find hfind
  simp [getBookRoute, hgb]

theorem getBookRoute_notFound {s : Store} {id : String}
    (hfind : findBook s id = none) :
    getBookRoute s false id = ⟨404, .message "Livro não encontrado", s⟩ := by
  have hgb := getBookById_of_none hfind
  simp [getBookRoute, hgb]

theorem createBook_fresh {s : Store} {newBook : book}
    (hfresh : findBook s newBook.ID = none) :
    createBook s false false (some newBook) =
      ⟨201, .item newBook, s ++ [newBook]⟩ := by
  simp [createBook, hfresh]

/-! ### Preservation of the quantity invariant -/

theorem nonNeg_update {s : Store} {id : String} {d : Int}
    (hnn : NonNeg s)
    (hpos : ∀ x ∈ s, x.ID = id → 0 ≤ x.Quantity + d) :
    NonNeg (updateQuantity s id d) := by
  intro b hb
  rcases List.mem_map.mp hb with ⟨x, hx, rfl⟩
  by_cases h : x.ID = id
  · simp only [h, beq_self_eq_true, if_true]
    exact hpos x hx h
  · simp only [beq_eq_false_iff_ne.mpr h, Bool.false_eq_true, if_false]
    exact hnn x hx

theorem checkoutBook_preserves_nonNeg {s : Store} (hwf : WF s) (hnn : NonNeg s)
    (rf uf : Bool) (req : Option String) :
    NonNeg (checkoutBook s rf uf req).store := by
  cases req with
  | none => exact hnn
  | some id =>
    simp only [checkoutBook]
    split
    · exact hnn
    · split
      · exact hnn
      · rename_i b hgb
        split
        · exact hnn
        · split
          · exact hnn
          · rename_i hqle _
            have hfind : findBook s id = some b := getBookById_ok hgb
            apply nonNeg_update hnn
            intro x hx hxid
            have hfx : findBook s id = some x := by
              rw [← hxid]
              exact findBook_of_mem hwf hx
            have hxb : x = b := by
              rw [hfx] at hfind
              exact Option.some.inj hfind
            rw [hxb]
            omega

theorem returnBook_preserves_nonNeg {s : Store} (hnn : NonNeg s)
    (rf uf : Bool) (req : Option String) :
    NonNeg (returnBook s rf uf req).store := by
  cases req with
  | none => exact hnn
  | some id =>
    simp only [returnBook]
    split
    · exact hnn
    · split
      · exact hnn
      · split
        · exact hnn
        · apply nonNeg_update hnn
          intro x hx _
          have := hnn x hx
          omega

theorem createBook_preserves_nonNeg {s : Store} (hnn : NonNeg s)
    (sf insf : Bool) (nb : book) (hq : 0 ≤ nb.Quantity) :
    NonNeg (createBook s sf insf (some nb)).store := by
  simp only [createBook]
  split
  · exact hnn
  · split
    · exact hnn
    · split
      · exact hnn
      · intro b hb
        rcases List.mem_append.mp hb with h | h
        · exact hnn b h
        · rw [List.mem_singleton.mp h]
          exact hq

/-! ### Claim theorems -/

/-- C1, counterexample: `createBook` performs no quantity validation, so a
create request carrying `quantity = -1` is accepted (201) and stores an item
with a negative quantity, refuting "no operation (CreateItem, CheckoutItem,
ReturnItem) ever produces a stored item with a negative quantity". -/
theorem createBook_stores_negative_quantity :
    (createBook [] false false (some ⟨"b1", "T", "A", -1⟩)).status = 201 ∧
    (createBook [] false false (some ⟨"b1", "T", "A", -1⟩)).store =
      [⟨"b1", "T", "A", -1⟩] ∧
    ∃ b ∈ (createBook [] false false (some ⟨"b1", "T", "A", -1⟩)).store,
      b.Quantity < 0 := by
  decide

/-- C1, amended: from any catalog whose ids are unique (the PRIMARY KEY
constraint) and whose quantities are all nonnegative, CheckoutItem and
ReturnItem preserve nonnegativity — in particular a checkout that would drive
a quantity negative is rejected — and CreateItem preserves it provided the
supplied quantity is nonnegative; CreateItem performs no quantity validation,
so a negative supplied quantity is stored as-is. -/
theorem quantity_invariant_preserved {s : Store} (hwf : WF s) (hnn : NonNeg s)
    (rf uf sf insf : Bool) (req : Option String) (nb : book)
    (hq : 0 ≤ nb.Quantity) :
    NonNeg (checkoutBook s rf uf req).store ∧
    NonNeg (returnBook s rf uf req).store ∧
    NonNeg (createBook s sf insf (some nb)).store :=
  ⟨checkoutBook_preserves_nonNeg hwf hnn rf uf req,
   returnBook_preserves_nonNeg hnn rf uf req,
   createBook_preserves_nonNeg hnn sf insf nb hq⟩

theorem quantity_invariant_preserved_witness :
    WF [⟨"b1", "T", "A", 2⟩] ∧ NonNeg [⟨"b1", "T", "A", 2⟩] ∧
    (0 : Int) ≤ (⟨"b2", "U", "B", 0⟩ : book).Quantity ∧
    (NonNeg (checkoutBook [⟨"b1", "T", "A", 2⟩] false false (some "b1")).store ∧
     NonNeg (returnBook [⟨"b1", "T", "A", 2⟩] false false (some "b1")).store ∧
     NonNeg (createBook [⟨"b1", "T", "A", 2⟩] false false
       (some ⟨"b2", "U", "B", 0⟩)).store) :=
  ⟨by decide, by decide, by decide,
   quantity_invariant_preserved (by decide) (by decide) false false false false
     (some "b1") ⟨"b2", "U", "B", 0⟩ (by decide)⟩

/-- C2: checking out an item that is present with quantity `n > 0` succeeds
(200, per spec §4 invoked with its non-empty id), and a subsequent GetItem on
that id reports quantity `n - 1` with title, author and id unchanged. -/
theorem checkout_decrements_quantity {s : Store} {b : book}
    (hwf : WF s) (hb : b ∈ s) (hne : b.ID ≠ "") (hq : 0 < b.Quantity) :
    (checkoutBook s false false (some b.ID)).status = 200 ∧
    getBookRoute (checkoutBook s false false (some b.ID)).store false b.ID =
      ⟨200, .item { b with Quantity := b.Quantity - 1 },
        (checkoutBook s false false (some b.ID)).store⟩ := by
  have hfind := findBook_of_mem hwf hb
  have hco := checkoutBook_found hne hfind hq
  refine ⟨by rw [hco], ?_⟩
  rw [hco]
  have hfu : findBook (updateQuantity s b.ID (-1)) b.ID =
      some { b with Quantity := b.Quantity - 1 } := by
    rw [findBook_update, hfind]
    simp [Int.sub_eq_add_neg]
  exact getBookRoute_found hfu

theorem checkout_decrements_quantity_witness :
    WF [⟨"b1", "T", "A", 2⟩] ∧ (⟨"b1", "T", "A", 2⟩ : book) ∈
      ([⟨"b1", "T", "A", 2⟩] : Store) ∧ ("b1" : String) ≠ "" ∧
    (0 : Int) < 2 ∧
    ((checkoutBook [⟨"b1", "T", "A", 2⟩] false false (some "b1")).status = 200 ∧
     getBookRoute (checkoutBook [⟨"b1", "T", "A", 2⟩] false false
         (some "b1")).store false "b1" =
       ⟨200, .item ⟨"b1", "T", "A", 1⟩,
         (checkoutBook [⟨"b1", "T", "A", 2⟩] false false (some "b1")).store⟩) :=
  ⟨by decide, by decide, by decide, by decide,
   @checkout_decrements_quantity [⟨"b1", "T", "A", 2⟩] ⟨"b1", "T", "A", 2⟩
     (by decide) (by decide) (by decide) (by decide)⟩

/-- C3: checking out an item that is present with quantity `0` fails with the
unavailable error (400 "Livro não disponível") and leaves the store — in
particular that item's quantity — completely unchanged. -/
theorem checkout_zero_rejected_unchanged {s : Store} {b : book}
    (hwf : WF s) (hb : b ∈ s) (hne : b.ID ≠ "") (hq : b.Quantity = 0) :
    checkoutBook s false false (some b.ID) =
      ⟨400, .message "Livro não disponível", s⟩ :=
  checkoutBook_empty hne (findBook_of_mem hwf hb) (le_of_eq hq)

theorem checkout_zero_rejected_unchanged_witness :
    WF [⟨"b1", "T", "A", 0⟩] ∧ (⟨"b1", "T", "A", 0⟩ : book) ∈
      ([⟨"b1", "T", "A", 0⟩] : Store) ∧ ("b1" : String) ≠ "" ∧
    (⟨"b1", "T", "A", 0⟩ : book).Quantity = 0 ∧
    checkoutBook [⟨"b1", "T", "A", 0⟩] false false (some "b1") =
      ⟨400, .message "Livro não disponível", [⟨"b1", "T", "A", 0⟩]⟩ :=
  ⟨by decide, by decide, by decide, by decide,
   @checkout_zero_rejected_unchanged [⟨"b1", "T", "A", 0⟩] ⟨"b1", "T", "A", 0⟩
     (by decide) (by decide) (by decide) (by decide)⟩

/-- C4: when checkout or return succeeds, the response body carries the item
exactly as it was read before the `UPDATE`: the returned quantity is the
pre-update stored quantity `b.Quantity`, while the store afterwards holds
`b.Quantity - 1` (checkout, which succeeds exactly under its
`0 < b.Quantity` precondition) resp. `b.Quantity + 1` (return, which
succeeds for a present item at any stored quantity, zero included). -/
theorem success_returns_pre_update_item {s : Store} {id : String} {b : book}
    (hne : id ≠ "") (hfind : findBook s id = some b) :
    (0 < b.Quantity →
      (checkoutBook s false false (some id)).status = 200 ∧
      (checkoutBook s false false (some id)).body = .item b ∧
      findBook (checkoutBook s false false (some id)).store id =
        some { b with Quantity := b.Quantity - 1 }) ∧
    ((returnBook s false false (some id)).status = 200 ∧
     (returnBook s false false (some id)).body = .item b ∧
     findBook (returnBook s false false (some id)).store id =
       some { b with Quantity := b.Quantity + 1 }) := by
  have hre := returnBook_found hne hfind
  refine ⟨fun hq => ?_, ⟨by rw [hre], by rw [hre], ?_⟩⟩
  · have hco := checkoutBook_found hne hfind hq
    refine ⟨by rw [hco], by rw [hco], ?_⟩
    rw [hco, findBook_update, hfind]
    simp [Int.sub_eq_add_neg]
  · rw [hre, findBook_update, hfind]
    simp

theorem success_returns_pre_update_item_witness :
    ("b1" : String) ≠ "" ∧
    findBook [⟨"b1", "T", "A", 2⟩, ⟨"b0", "U", "B", 0⟩] "b1" =
      some ⟨"b1", "T", "A", 2⟩ ∧
    ("b0" : String) ≠ "" ∧
    findBook [⟨"b1", "T", "A", 2⟩, ⟨"b0", "U", "B", 0⟩] "b0" =
      some ⟨"b0", "U", "B", 0⟩ ∧
    (((0 : Int) < 2 →
       (checkoutBook [⟨"b1", "T", "A", 2⟩, ⟨"b0", "U", "B", 0⟩] false false
           (some "b1")).status = 200 ∧
       (checkoutBook [⟨"b1", "T", "A", 2⟩, ⟨"b0", "U", "B", 0⟩] false false
           (some "b1")).body = .item ⟨"b1", "T", "A", 2⟩ ∧
       findBook (checkoutBook [⟨"b1", "T", "A", 2⟩, ⟨"b0", "U", "B", 0⟩]
           false false (some "b1")).store "b1" = some ⟨"b1", "T", "A", 1⟩) ∧
     ((returnBook [⟨"b1", "T", "A", 2⟩, ⟨"b0", "U", "B", 0⟩] false false
          (some "b1")).status = 200 ∧
      (returnBook [⟨"b1", "T", "A", 2⟩, ⟨"b0", "U", "B", 0⟩] false false
          (some "b1")).body = .item ⟨"b1", "T", "A", 2⟩ ∧
      findBook (returnBook [⟨"b1", "T", "A", 2⟩, ⟨"b0", "U", "B", 0⟩]
          false false (some "b1")).store "b1" = some ⟨"b1", "T", "A", 3⟩)) ∧
    (((0 : Int) < 0 →
       (checkoutBook [⟨"b1", "T", "A", 2⟩, ⟨"b0", "U", "B", 0⟩] false false
           (some "b0")).status = 200 ∧
       (checkoutBook [⟨"b1", "T", "A", 2⟩, ⟨"b0", "U", "B", 0⟩] false false
           (some "b0")).body = .item ⟨"b0", "U", "B", 0⟩ ∧
       findBook (checkoutBook [⟨"b1", "T", "A", 2⟩, ⟨"b0", "U", "B", 0⟩]
           false false (some "b0")).store "b0" = some ⟨"b0", "U", "B", -1⟩) ∧
     ((returnBook [⟨"b1", "T", "A", 2⟩, ⟨"b0", "U", "B", 0⟩] false false
          (some "b0")).status = 200 ∧
      (returnBook [⟨"b1", "T", "A", 2⟩, ⟨"b0", "U", "B", 0⟩] false false
          (some "b0")).body = .item ⟨"b0", "U", "B", 0⟩ ∧
      findBook (returnBook [⟨"b1", "T", "A", 2⟩, ⟨"b0", "U", "B", 0⟩]
          false false (some "b0")).store "b0" = some ⟨"b0", "U", "B", 1⟩)) :=
  ⟨by decide, by decide, by decide, by decide,
   @success_returns_pre_update_item [⟨"b1", "T", "A", 2⟩, ⟨"b0", "U", "B", 0⟩]
     "b1" ⟨"b1", "T", "A", 2⟩ (by decide) (by decide),
   @success_returns_pre_update_item [⟨"b1", "T", "A", 2⟩, ⟨"b0", "U", "B", 0⟩]
     "b0" ⟨"b0", "U", "B", 0⟩ (by decide) (by decide)⟩

/-- C5: a create request whose (non-empty, per spec §4 "all fields populated")
id already belongs to a stored item fails with 409 Conflict and leaves the
store — in particular the existing record's title, author and quantity —
unchanged, whatever the state of the insert path. -/
theorem create_duplicate_conflict {s : Store} {newBook b : book} (insf : Bool)
    (hb : b ∈ s) (hid : b.ID = newBook.ID) (hne : newBook.ID ≠ "") :
    createBook s false insf (some newBook) =
      ⟨409, .message "ID do livro já existe", s⟩ := by
  have hsome : (findBook s newBook.ID).isSome := by
    rw [← hid]
    exact findBook_isSome_of_mem hb
  obtain ⟨found, hfound⟩ := Option.isSome_iff_exists.mp hsome
  have hfid : found.ID = newBook.ID := findBook_id hfound
  simp [createBook, hfound, hfid, hne]

theorem create_duplicate_conflict_witness :
    (⟨"b1", "T", "A", 2⟩ : book) ∈ ([⟨"b1", "T", "A", 2⟩] : Store) ∧
    (⟨"b1", "T", "A", 2⟩ : book).ID = (⟨"b1", "X", "Y", 9⟩ : book).ID ∧
    (⟨"b1", "X", "Y", 9⟩ : book).ID ≠ "" ∧
    createBook [⟨"b1", "T", "A", 2⟩] false false (some ⟨"b1", "X", "Y", 9⟩) =
      ⟨409, .message "ID do livro já existe", [⟨"b1", "T", "A", 2⟩]⟩ :=
  ⟨by decide, by decide, by decide,
   @create_duplicate_conflict [⟨"b1", "T", "A", 2⟩] ⟨"b1", "X", "Y", 9⟩
     ⟨"b1", "T", "A", 2⟩ false (by decide) (by decide) (by decide)⟩

/-- C6: returning an item that is present (invoked with its non-empty id per
spec §4) always succeeds — no upper bound on the quantity — and a subsequent
GetItem reports quantity `n + 1`, for any `n ≥ 0`. -/
theorem return_increments_quantity {s : Store} {b : book}
    (hwf : WF s) (hb : b ∈ s) (hne : b.ID ≠ "") (_hq : 0 ≤ b.Quantity) :
    (returnBook s false false (some b.ID)).status = 200 ∧
    getBookRoute (returnBook s false false (some b.ID)).store false b.ID =
      ⟨200, .item { b with Quantity := b.Quantity + 1 },
        (returnBook s false false (some b.ID)).store⟩ := by
  have hfind := findBook_of_mem hwf hb
  have hre := returnBook_found hne hfind
  refine ⟨by rw [hre], ?_⟩
  rw [hre]
  have hfu : findBook (updateQuantity s b.ID 1) b.ID =
      some { b with Quantity := b.Quantity + 1 } := by
    rw [findBook_update, hfind]
    simp
  exact getBookRoute_found hfu

theorem return_increments_quantity_witness :
    WF [⟨"b1", "T", "A", 0⟩] ∧ (⟨"b1", "T", "A", 0⟩ : book) ∈
      ([⟨"b1", "T", "A", 0⟩] : Store) ∧ ("b1" : String) ≠ "" ∧
    (0 : Int) ≤ 0 ∧
    ((returnBook [⟨"b1", "T", "A", 0⟩] false false (some "b1")).status = 200 ∧
     getBookRoute (returnBook [⟨"b1", "T", "A", 0⟩] false false
         (some "b1")).store false "b1" =
       ⟨200, .item ⟨"b1", "T", "A", 1⟩,
         (returnBook [⟨"b1", "T", "A", 0⟩] false false (some "b1")).store⟩) :=
  ⟨by decide, by decide, by decide, by decide,
   @return_increments_quantity [⟨"b1", "T", "A", 0⟩] ⟨"b1", "T", "A", 0⟩
     (by decide) (by decide) (by decide) (by decide)⟩

/-- C7: for a (non-empty, per spec §4) id that matches no stored item, GetItem,
CheckoutItem and ReturnItem all fail with 404 "Livro não encontrado" and leave
the store unchanged. -/
theorem unknown_id_not_found {s : Store} {id : String}
    (hne : id ≠ "") (hfind : findBook s id = none) :
    getBookRoute s false id = ⟨404, .message "Livro não encontrado", s⟩ ∧
    checkoutBook s false false (some id) =
      ⟨404, .message "Livro não encontrado", s⟩ ∧
    returnBook s false false (some id) =
      ⟨404, .message "Livro não encontrado", s⟩ :=
  ⟨getBookRoute_notFound hfind, checkoutBook_notFound hne hfind,
   returnBook_notFound hne hfind⟩

theorem unknown_id_not_found_witness :
    ("zz" : String) ≠ "" ∧
    findBook [⟨"b1", "T", "A", 2⟩] "zz" = none ∧
    (getBookRoute [⟨"b1", "T", "A", 2⟩] false "zz" =
       ⟨404, .message "Livro não encontrado", [⟨"b1", "T", "A", 2⟩]⟩ ∧
     checkoutBook [⟨"b1", "T", "A", 2⟩] false false (some "zz") =
       ⟨404, .message "Livro não encontrado", [⟨"b1", "T", "A", 2⟩]⟩ ∧
     returnBook [⟨"b1", "T", "A", 2⟩] false false (some "zz") =
       ⟨404, .message "Livro não encontrado", [⟨"b1", "T", "A", 2⟩]⟩) :=
  ⟨by decide, by decide,
   @unknown_id_not_found [⟨"b1", "T", "A", 2⟩] "zz" (by decide) (by decide)⟩

/-- C8, counterexample: with the item present but the storage read failing,
the `GET /books/:id` route still answers 404 "Livro não encontrado" — the
HTTP surface does NOT report a distinct storage-unavailable error, refuting
"fails with NotFound exactly when no item has the given id". -/
theorem read_failure_reported_not_found :
    (findBook [⟨"b1", "T", "A", 1⟩] "b1").isSome ∧
    getBookRoute [⟨"b1", "T", "A", 1⟩] true "b1" =
      ⟨404, .message "Livro não encontrado", [⟨"b1", "T", "A", 1⟩]⟩ := by
  decide

/-- C8, amended: the internal lookup `getBookById` does distinguish its two
failure modes as distinct error values (the dedicated not-found error exactly
when no item has the id and the read succeeds; the underlying error on a read
failure), but every caller collapses them: the `GET /books/:id` route and the
lookup phase of checkout and return answer 404 NotFound for a storage read
failure just as for an unknown id. -/
theorem lookup_error_modes (s : Store) (id : String) (hne : id ≠ "") :
    (getBookById s false id = .error .notFound ↔ findBook s id = none) ∧
    getBookById s true id = .error .readFailure ∧
    getBookRoute s true id = ⟨404, .message "Livro não encontrado", s⟩ ∧
    checkoutBook s true false (some id) =
      ⟨404, .message "Livro não encontrado", s⟩ ∧
    returnBook s true false (some id) =
      ⟨404, .message "Livro não encontrado", s⟩ := by
  have hrf : getBookById s true id = .error .readFailure := by
    simp [getBookById, queryRowScan]
  refine ⟨⟨?_, getBookById_of_none⟩, hrf, ?_, ?_, ?_⟩
  · intro h
    cases hf : findBook s id with
    | none => rfl
    | some b =>
      rw [getBookById_of_find hf] at h
      exact absurd h (by simp)
  · simp [getBookRoute, hrf]
  · simp [checkoutBook, hne, hrf]
  · simp [returnBook, hne, hrf]

theorem lookup_error_modes_witness :
    ("b1" : String) ≠ "" ∧
    ((getBookById [⟨"b1", "T", "A", 1⟩] false "b1" = .error .notFound ↔
        findBook [⟨"b1", "T", "A", 1⟩] "b1" = none) ∧
     getBookById [⟨"b1", "T", "A", 1⟩] true "b1" = .error .readFailure ∧
     getBookRoute [⟨"b1", "T", "A", 1⟩] true "b1" =
       ⟨404, .message "Livro não encontrado", [⟨"b1", "T", "A", 1⟩]⟩ ∧
     checkoutBook [⟨"b1", "T", "A", 1⟩] true false (some "b1") =
       ⟨404, .message "Livro não encontrado", [⟨"b1", "T", "A", 1⟩]⟩ ∧
     returnBook [⟨"b1", "T", "A", 1⟩] true false (some "b1") =
       ⟨404, .message "Livro não encontrado", [⟨"b1", "T", "A", 1⟩]⟩) :=
  ⟨by decide, lookup_error_modes [⟨"b1", "T", "A", 1⟩] "b1" (by decide)⟩

/-- C9: creating an item under a fresh id succeeds (201) and appends exactly
the supplied record, and a subsequent GetItem with that id succeeds (200) and
returns an item with identical id, title, author and quantity. -/
theorem create_get_roundtrip {s : Store} {newBook : book}
    (hfresh : findBook s newBook.ID = none) :
    createBook s false false (some newBook) =
      ⟨201, .item newBook, s ++ [newBook]⟩ ∧
    getBookRoute (s ++ [newBook]) false newBook.ID =
      ⟨200, .item newBook, s ++ [newBook]⟩ :=
  ⟨createBook_fresh hfresh, getBookRoute_found (findBook_append_self hfresh)⟩

theorem create_get_roundtrip_witness :
    findBook [⟨"b1", "T", "A", 2⟩] "b2" = none ∧
    (createBook [⟨"b1", "T", "A", 2⟩] false false (some ⟨"b2", "U", "B", 5⟩) =
       ⟨201, .item ⟨"b2", "U", "B", 5⟩,
         [⟨"b1", "T", "A", 2⟩, ⟨"b2", "U", "B", 5⟩]⟩ ∧
     getBookRoute [⟨"b1", "T", "A", 2⟩, ⟨"b2", "U", "B", 5⟩] false "b2" =
       ⟨200, .item ⟨"b2", "U", "B", 5⟩,
         [⟨"b1", "T", "A", 2⟩, ⟨"b2", "U", "B", 5⟩]⟩) :=
  ⟨by decide,
   @create_get_roundtrip [⟨"b1", "T", "A", 2⟩] ⟨"b2", "U", "B", 5⟩ (by decide)⟩

/-- C10: `createBook` validates nothing beyond JSON decoding: whatever the
decoded field values — an empty id, empty/missing title or author, a missing
quantity (defaulting to 0) or a negative quantity — the handler never answers
400 once the body decodes, and under a fresh id it inserts exactly the
supplied (decoded) values. -/
theorem create_no_field_validation (s : Store) (r : rawBookJSON) (sf insf : Bool)
    (hfresh : findBook s (decodeBook r).ID = none) :
    (createBook s sf insf (some (decodeBook r))).status ≠ 400 ∧
    createBook s false false (some (decodeBook r)) =
      ⟨201, .item (decodeBook r), s ++ [decodeBook r]⟩ := by
  refine ⟨?_, createBook_fresh hfresh⟩
  simp only [createBook]
  split
  · simp
  · split
    · simp
    · split
      · simp
      · simp

theorem create_no_field_validation_witness :
    findBook []
      (decodeBook ⟨some "", none, none, some (-5)⟩).ID = none ∧
    ((createBook [] true false
        (some (decodeBook ⟨some "", none, none, some (-5)⟩))).status ≠ 400 ∧
     createBook [] false false
        (some (decodeBook ⟨some "", none, none, some (-5)⟩)) =
       ⟨201, .item ⟨"", "", "", -5⟩, [⟨"", "", "", -5⟩]⟩) :=
  ⟨by decide,
   create_no_field_validation [] ⟨some "", none, none, some (-5)⟩ true false
     (by decide)⟩
